import Mathlib

/-
Verification of the CVL cross-reference and identifier subsystem of the
docs-infrastructure repository: a shallow embedding of
`src/docsinfra/sphinx_utils/cvl_domain.py` and
`src/docsinfra/sphinx_utils/cvlid.py`, with theorems about refname
composition/decomposition, index registration and lookup, identifier
lexing, and element-key matching.
-/

-- ===========================================================================
-- Python string primitives used by the embedded code
-- ===========================================================================

/-- Auxiliary for Python `str.split(sep)` with a single-character separator:
returns the first group and the list of remaining groups. -/
def pySplitAux (sep : Char) : List Char → List Char × List (List Char)
  | [] => ([], [])
  | c :: rest =>
    let r := pySplitAux sep rest
    if c = sep then ([], r.1 :: r.2) else (c :: r.1, r.2)

/-- Python `str.split(sep)` over `List Char`; as in Python,
`"".split(":") = [""]` and `"a:b".split(":") = ["a", "b"]`. -/
def pySplit (sep : Char) (l : List Char) : List (List Char) :=
  (pySplitAux sep l).1 :: (pySplitAux sep l).2

/-- Python `sep.join(parts)` over `List Char`. -/
def pyJoin (sep : Char) : List (List Char) → List Char
  | [] => []
  | [p] => p
  | p :: q :: ps => p ++ sep :: pyJoin sep (q :: ps)

/-- Python `":".join(parts)` on strings, as used with `_spec_separator = ":"`
in cvl_domain.py. -/
def joinStr (parts : List String) : String :=
  String.mk (pyJoin ':' (parts.map String.toList))

/-- Python `s.split(":")` on strings, as used with `_spec_separator = ":"`. -/
def pySplitStr (s : String) : List String :=
  (pySplit ':' s.toList).map String.mk

/-- Whether an optional string contains no `:` separator. -/
def colonFreeO : Option String → Prop
  | none => True
  | some s => ':' ∉ s.toList

instance colonFreeODecidable : (o : Option String) → Decidable (colonFreeO o)
  | none => Decidable.isTrue trivial
  | some s => inferInstanceAs (Decidable (':' ∉ s.toList))

def isErrE {α : Type} : Except String α → Bool
  | .error _ => true
  | .ok _ => false

def isOkE {α : Type} : Except String α → Bool
  | .error _ => false
  | .ok _ => true

instance exceptDecEq {ε α : Type} [DecidableEq ε] [DecidableEq α] :
    DecidableEq (Except ε α) := fun x y =>
  match x, y with
  | .ok a, .ok b =>
    if h : a = b then .isTrue (by rw [h]) else
      .isFalse (by intro hh; injection hh; contradiction)
  | .error a, .error b =>
    if h : a = b then .isTrue (by rw [h]) else
      .isFalse (by intro hh; injection hh; contradiction)
  | .ok _, .error _ => .isFalse (by intro hh; exact Except.noConfusion hh)
  | .error _, .ok _ => .isFalse (by intro hh; exact Except.noConfusion hh)

-- ===========================================================================
-- cvl_domain.py: constants and naming functions
-- ===========================================================================

/-- The keys of `_cvl_object_types` (cvl_domain.py), in insertion order;
these are the object kinds of the CVL domain. -/
def cvlObjectTypeKeys : List String :=
  ["rule", "invariant", "function", "definition", "hook", "ghost",
   "methods", "spec", "property"]

/-- Model of `to_refname(reftype, spec_name, rule_name)` from cvl_domain.py.
The two `assert` statements of the `"spec"` branch and the `ValueError`
for an empty spec and rule name are modelled as `.error`; joining a tuple
containing `None` (spec name present, rule name absent, non-"spec" kind)
would raise `TypeError` in Python and is modelled as `.error` too. -/
def toRefname (reftype : String) (specName ruleName : Option String) :
    Except String String :=
  if reftype = "spec" then
    match specName, ruleName with
    | some s, none => .ok (joinStr ["cvl", reftype, s])
    | _, _ => .error "AssertionError in to_refname"
  else
    match specName, ruleName with
    | none, none => .error "Empty spec and rule/property name"
    | none, some r => .ok (joinStr ["cvl", reftype, r])
    | some s, some r => .ok (joinStr ["cvl", reftype, s, r])
    | some _, none => .error "TypeError: sequence item 3 is not str"

/-- Model of `spec_and_rulename_from_ref(refname, reftype)` from cvl_domain.py.
Returns the object type, spec name and rule or property name; every
`raise ValueError` of the source is modelled as `.error`. -/
def specAndRulenameFromRef (refname reftype : String) :
    Except String (String × Option String × Option String) :=
  if refname.toList = [] then
    .error "Unexpected empty full name in CVL domain"
  else if (pySplitStr refname).length < 3 then
    .error "too few parts"
  else if (pySplitStr refname).getD 0 "" ≠ "cvl" then
    .error "wrong domain"
  else if (pySplitStr refname).getD 1 "" ∉ cvlObjectTypeKeys then
    .error "wrong type"
  else if reftype = "spec" then
    if (pySplitStr refname).length > 3 then
      .error "spec should have 3 parts"
    else .ok (reftype, some ((pySplitStr refname).getD 2 ""), none)
  else if reftype = "property" then
    if (pySplitStr refname).length > 3 then
      .error "property should have 3 parts"
    else .ok (reftype, none, some ((pySplitStr refname).getD 2 ""))
  else if (pySplitStr refname).length = 3 then
    .ok (reftype, none, some ((pySplitStr refname).getD 2 ""))
  else if (pySplitStr refname).length > 4 then
    .error "too many parts"
  else
    .ok (reftype, some ((pySplitStr refname).getD 2 ""),
         some ((pySplitStr refname).getD 3 ""))

-- ===========================================================================
-- cvl_domain.py: the CVLDomain objects table, registration and lookup
-- ===========================================================================

/-- Model of `CVLObjectEntry` from cvl_domain.py: (document, anchor, object kind). -/
structure CVLObjectEntry where
  docname : String
  nodeId : String
  objtype : String
deriving DecidableEq

/-- Lookup in an association list, modelling a Python `dict` read
(`d[k]` / `k in d`). -/
def alistLookup {α : Type} : List (String × α) → String → Option α
  | [], _ => none
  | (k, v) :: rest, key => if k = key then some v else alistLookup rest key

/-- In-place update of an association list, modelling Python `d[k] = v`
(insertion order preserved, existing key overwritten). -/
def alistUpdate {α : Type} : List (String × α) → String → α → List (String × α)
  | [], k, v => [(k, v)]
  | (k1, v1) :: rest, k, v =>
    if k1 = k then (k, v) :: rest else (k1, v1) :: alistUpdate rest k v

/-- Model of `CVLDomain.note_object(fullname, objtype, node_id)` from cvl_domain.py,
with the registering document (`self.env.docname`) passed explicitly and the
emitted `logger.warning` calls returned as a list of strings.  For
`objtype == "spec"` the source then executes
`spec_entry.has_spec_object = True`, an assignment to a field of the
immutable `NamedTuple` `CVLSpecEntry`, which raises `AttributeError` in
Python; that raise is modelled as `.error`.  (In the source the
objects-table write happens before the raise; the `Except` model discards
the partially updated state on error.) -/
def noteObject (objects : List (String × CVLObjectEntry))
    (envDocname fullname objtype nodeId : String) :
    Except String (List (String × CVLObjectEntry) × List String) :=
  let warnings : List String :=
    match alistLookup objects fullname with
    | some prior =>
      ["duplicate " ++ objtype ++ " description of " ++ fullname ++
       ", other " ++ objtype ++ " in " ++ prior.docname]
    | none => []
  let objects2 := alistUpdate objects fullname ⟨envDocname, nodeId, objtype⟩
  if objtype = "spec" then
    .error "AttributeError: can not set attribute has_spec_object of CVLSpecEntry"
  else
    .ok (objects2, warnings)

/-- Python slice test `name[-2:] == "()"` from `find_obj`. -/
def endsWithParens (s : String) : Bool :=
  decide (s.toList.drop (s.toList.length - 2) = ['(', ')'])

/-- Python slice `name[:-2]` from `find_obj`. -/
def dropLast2 (s : String) : String :=
  String.mk (s.toList.take (s.toList.length - 2))

/-- Python exception kinds relevant to `find_obj`: its
`except ValueError` catches a `ValueError` but not an
`AttributeError`. -/
inductive PyError where
  | valueError (msg : String)
  | attributeError (msg : String)
deriving DecidableEq

/-- Model of `canonical_spec_name_from_filepath(filepath, env)` from
cvl_domain.py for a non-None filepath (the only way `find_obj` calls
it): the source builds `CodeLinkConfig(env)` and then evaluates
`code_conf.path2relfn(path)`, but `CodeLinkConfig`
(codelink_extension.py) defines no attribute `path2relfn` (its methods
are `relfn2path`, `get_abs_path`, `get_remapping`, ...), so the
attribute lookup raises `AttributeError` for every path, before the
path is used. -/
def canonicalSpecNameFromFilepath (_filepath : String) : Except PyError String :=
  .error (.attributeError
    "AttributeError: CodeLinkConfig object has no attribute path2relfn")

/-- The `for objtype in kinds` loop of `CVLDomain.find_obj`, appending
for each candidate kind the kind-qualified refname and, when a spec name
is available, the spec-composed refname. -/
def searchesLoop (joined : String) (specName : Option String) :
    List String → List String
  | [] => []
  | objtype :: rest =>
    joinStr ["cvl", objtype, joined] ::
      ((match specName with
        | none => []
        | some sp =>
          [if objtype = "spec" then joinStr ["cvl", objtype, sp]
           else joinStr ["cvl", objtype, sp, joined]]) ++
       searchesLoop joined specName rest)

/-- The search phase of `CVLDomain.find_obj` after the spec-name
canonicalization: the `parts` destructuring of the name, the candidate
kinds, the search list and the match collection.  The source indexes
`parts[0]` unguardedly; for the (crashing) Python corner case
`name = "cvl"` the model reads the default `""` instead, a value never
used by the theorems below. -/
def findObjSearch (objects : List (String × CVLObjectEntry))
    (name : String) (specName : Option String) (kind0 : Option String) :
    List (String × CVLObjectEntry) :=
  let parts0 := pySplitStr name
  let parts1 := if parts0.getD 0 "" = "cvl" then parts0.tail else parts0
  let kind1 := if parts1.getD 0 "" ∈ cvlObjectTypeKeys
    then some (parts1.getD 0 "") else kind0
  let parts2 := if parts1.getD 0 "" ∈ cvlObjectTypeKeys
    then parts1.tail else parts1
  let kinds := match kind1 with
    | none => cvlObjectTypeKeys
    | some k => [k]
  let joined := joinStr parts2
  let searches := name :: searchesLoop joined specName kinds
  searches.filterMap (fun s => (alistLookup objects s).map (fun e2 => (s, e2)))

/-- Model of `CVLDomain.find_obj(env, name, spec_name, kind)` from
cvl_domain.py.  A given spec name is canonicalized inside
`try: ... except ValueError: spec_name = None`; the `AttributeError`
that `canonical_spec_name_from_filepath` actually raises (see
`canonicalSpecNameFromFilepath`) is not a `ValueError`, so it is not
caught and propagates out of `find_obj`, modelled as `.error`.
Consequently every call with a spec hint fails before reaching the
search phase, and the `.ok`-with-canonical-spec branch below is
unreachable. -/
def findObj (objects : List (String × CVLObjectEntry))
    (name0 : String) (specName0 : Option String) (kind0 : Option String) :
    Except String (List (String × CVLObjectEntry)) :=
  let name := if endsWithParens name0 then dropLast2 name0 else name0
  match specName0 with
  | none => .ok (findObjSearch objects name none kind0)
  | some sp =>
    match canonicalSpecNameFromFilepath sp with
    | .ok csp => .ok (findObjSearch objects name (some csp) kind0)
    | .error (.valueError _) => .ok (findObjSearch objects name none kind0)
    | .error (.attributeError msg) => .error msg

/-- Modelled from the spec: the four-tier lookup that section 4.4 of the
spec ascribes to `find_obj` — (1) exact refname, (2) spec-composed refname
when the spec hint canonicalizes, (3) domain+kind-qualified name for every
candidate kind, (4) bare-name search over the decomposed name component of
every registered refname — stopping at the first tier with at least one
match.  This definition exists only to state claim C2 as written; the
source's `find_obj` is embedded separately above. -/
def tieredFindObj (objects : List (String × CVLObjectEntry))
    (canon : String → Option String)
    (name : String) (specName0 : Option String) (kind0 : Option String) :
    List (String × CVLObjectEntry) :=
  let kinds := match kind0 with
    | none => cvlObjectTypeKeys
    | some k => [k]
  let matchesOf := fun (cands : List String) =>
    cands.filterMap (fun s => (alistLookup objects s).map (fun e2 => (s, e2)))
  let t1 := matchesOf [name]
  let t2 := match specName0 with
    | none => []
    | some sp =>
      match canon sp with
      | none => []
      | some csp => matchesOf (kinds.map (fun k =>
          if k = "spec" then joinStr ["cvl", k, csp]
          else joinStr ["cvl", k, csp, name]))
  let t3 := matchesOf (kinds.map (fun k => joinStr ["cvl", k, name]))
  let t4 := objects.filterMap (fun p =>
    match specAndRulenameFromRef p.1 p.2.objtype with
    | .ok (_, _, some rn) => if rn = name then some p else none
    | _ => none)
  if t1 ≠ [] then t1 else if t2 ≠ [] then t2 else if t3 ≠ [] then t3 else t4

/-- An identity spec-name canonicalization (an already-canonical name maps
to itself), used for concrete lookup scenarios. -/
def idCanon : String → Option String := fun s => some s

def c2cexEntry : CVLObjectEntry := ⟨"doc1", "id1", "rule"⟩

/-- A table holding one rule registered under its spec-qualified refname. -/
def c2cexObjects : List (String × CVLObjectEntry) :=
  [("cvl:rule:sp.spec:foo", c2cexEntry)]

def c2wEntryA : CVLObjectEntry := ⟨"docA", "idA", "rule"⟩

def c2wEntryB : CVLObjectEntry := ⟨"docB", "idB", "rule"⟩

/-- A table where the name `foo` is registered both as a bare fullname
(as the spec directive registers bare spec names via `note_object`) and
under the kind-qualified refname `cvl:rule:foo`. -/
def c2wObjectsA : List (String × CVLObjectEntry) :=
  [("foo", c2wEntryA), ("cvl:rule:foo", c2wEntryB)]

def c3Entry : CVLObjectEntry := ⟨"doc3", "id3", "rule"⟩

/-- A table holding exactly one element named `bar`, registered under the
spec-qualified refname `cvl:rule:sp.spec:bar`. -/
def c3Objects : List (String × CVLObjectEntry) :=
  [("cvl:rule:sp.spec:bar", c3Entry)]

-- ===========================================================================
-- cvlid.py: kind classifier and element-key matching
-- ===========================================================================

/-- Model of `CVLElemetWrapper._UNIQUE_KINDS` from cvlid.py. -/
def uniqueKinds : List (String × String) := [("Methods", "methods")]

/-- Model of `CVLElemetWrapper._NAMED_KINDS` from cvlid.py. -/
def namedKinds : List String :=
  ["Definition", "Function", "GhostFunction", "GhostMapping",
   "Invariant", "Rule"]

/-- Model of `CVLElemetWrapper._EXTRA_DATA_KINDS` from cvlid.py: kind name to the
name of the auxiliary data field identifying the element. -/
def extraDataKinds : List (String × String) :=
  [("HookOpcode", "opcode"), ("HookSload", "slot_pattern"),
   ("HookSstore", "slot_pattern")]

def uniqueKindNames : List String := uniqueKinds.map Prod.fst

def extraDataKindNames : List String := extraDataKinds.map Prod.fst

/-- Model of `CVLElemetWrapper.supported_kinds()` from cvlid.py. -/
def supportedKinds : List String :=
  uniqueKindNames ++ namedKinds ++ extraDataKindNames

/-- A parsed CVL construct as the wrapper sees it: the kind name (the
`AstKind` of `element.ast.kind` rendered as a string by the converter),
the declared name (`element.element_name()`), the `ast.data` dictionary
(modelled as a total field lookup for the fields read by the wrapper) and
the optional `params` entry of `ast.data`, as (name, type) pairs. -/
structure CvlElementModel where
  kindName : String
  elementName : String
  dataField : String → String
  params : Option (List (String × String))

/-- Model of `CVLElemetWrapper.__init__` from cvlid.py: raises `ValueError` when the
element's kind is unsupported, otherwise stores the element. -/
def CVLElemetWrapper_init (e : CvlElementModel) :
    Except String CvlElementModel :=
  if e.kindName ∈ supportedKinds then .ok e
  else .error "Unsupported element kind"

/-- Model of `CVLElemetWrapper.to_key` from cvlid.py. -/
def toKey (w : CvlElementModel) : Except String String :=
  if w.kindName ∈ uniqueKindNames then .ok w.kindName
  else if w.kindName ∈ namedKinds then .ok w.elementName
  else match alistLookup extraDataKinds w.kindName with
    | some fld => .ok (w.kindName ++ ":" ++ w.dataField fld)
    | none => .error ("Unexpected CVL kind " ++ w.kindName)

def getParamStr (p : String × String) : String := p.2 ++ " " ++ p.1

/-- Model of `CVLElemetWrapper.signature` from cvlid.py. -/
def signatureOf (w : CvlElementModel) : Except String String :=
  if w.kindName ∈ uniqueKindNames then .ok w.kindName
  else if w.kindName ∈ namedKinds then
    let ps := match w.params with
      | some l => String.intercalate ", " (l.map getParamStr)
      | none => ""
    .ok (w.elementName ++ "(" ++ ps ++ ")")
  else match alistLookup extraDataKinds w.kindName with
    | some fld => .ok (w.dataField fld)
    | none => .error ("Unexpected CVL kind " ++ w.kindName)

/-- Model of `CVLElemetWrapper._parse_key` from cvlid.py.  The membership test
`kind_name not in _KIND_CONVERTER` consults the attribute names of the
external `cvldoc_parser.AstKind` class; that name set is passed as the
parameter `kindNames`. -/
def parseKey (kindNames : List String) (key : String) :
    Except String (Option String × String) :=
  if ':' ∉ key.toList then .ok (none, key)
  else if key.toList.count ':' ≠ 1 then
    .error "Malformed CVL element identifier - use only one separator"
  else
    let kn := (pySplitStr key).getD 0 ""
    let dt := (pySplitStr key).getD 1 ""
    if kn ∈ kindNames then .ok (some kn, dt)
    else .error ("Unknown kind " ++ kn)

/-- Model of `CVLElemetWrapper.is_identifier_of(key)` from cvlid.py.  A `ValueError`
from `_parse_key` propagates; the result is otherwise the boolean computed
by the source. -/
def isIdentifierOf (kindNames : List String) (w : CvlElementModel)
    (key : String) : Except String Bool :=
  match parseKey kindNames key with
  | .error e => .error e
  | .ok (keyKind, name) =>
    if w.kindName ∈ uniqueKindNames then
      let uniqueName := (alistLookup uniqueKinds w.kindName).getD ""
      .ok (decide ((name = uniqueName ∨ name = w.kindName) ∧
        (keyKind = none ∨ keyKind = some w.kindName)))
    else if w.kindName ∈ namedKinds then
      .ok (decide (name = w.elementName ∧
        (keyKind = none ∨ keyKind = some w.kindName)))
    else if w.kindName ∈ extraDataKindNames then
      match keyKind with
      | none => .ok false
      | some kk =>
        let extra := w.dataField ((alistLookup extraDataKinds w.kindName).getD "")
        .ok (decide (kk = w.kindName ∧ extra = name))
    else .ok false

/-- Field-name lookup for an extra-data kind (the value of
`_EXTRA_DATA_KINDS[kind_name]`). -/
def extraFieldOf (kindName : String) : String :=
  (alistLookup extraDataKinds kindName).getD ""

/-- A storage-store hook element whose slot pattern is
`_hasVoted[KEY address voter]`. -/
def demoHook : CvlElementModel :=
  ⟨"HookSstore", "", fun _ => "_hasVoted[KEY address voter]", none⟩

/-- A rule element named `voterDecides` with one parameter. -/
def demoRule : CvlElementModel :=
  ⟨"Rule", "voterDecides", fun _ => "", some [("isInFavor", "bool")]⟩

-- ===========================================================================
-- cvlid.py: the identifier lexer (CVLIdsParser)
-- ===========================================================================

/-- Python regex `\s` on the ASCII inputs handled here. -/
def isWS (c : Char) : Bool :=
  c = ' ' || c = '\t' || c = '\n' || c = '\r' ||
  c = Char.ofNat 11 || c = Char.ofNat 12

/-- Python regex `\w` (ASCII). -/
def isWordChar (c : Char) : Bool := c.isAlpha || c.isDigit || c = '_'

/-- Start of `[a-zA-Z_]\w*`: an underscore or a letter. -/
def isIdentStart (c : Char) : Bool := c.isAlpha || c = '_'

def charAt (l : List Char) (i : Nat) : Char := l.getD i (Char.ofNat 0)

/-- End position of the maximal `\b[a-zA-Z_]\w*\b` match starting at `p`
(the word boundaries are automatic for a maximal word-character run that
starts after a non-word character, and greedy `\w*` followed by `\b`
cannot give characters back). -/
def identEnd (l : List Char) (p : Nat) : Option Nat :=
  if p < l.length && isIdentStart (charAt l p) then
    some (p + 1 + ((l.drop (p + 1)).takeWhile isWordChar).length)
  else none

/-- Scan for end positions just after each occurrence of the closing
delimiter, nearest first, stopping at a newline (regex `.` does not match
`\n`). -/
def closeScan (closec : Char) : List Char → Nat → List Nat
  | [], _ => []
  | c :: rest, i =>
    if c = '\n' then []
    else if c = closec then (i + 1) :: closeScan closec rest (i + 1)
    else closeScan closec rest (i + 1)

/-- Candidate end positions, in backtracking order, for `\[.*?\]` (or
`\(.*?\)`) starting at position `p`: the non-greedy `.*?` tries the
nearest closing delimiter first, then later ones. -/
def closeCandidates (l : List Char) (p : Nat) (openc closec : Char) :
    List Nat :=
  if p < l.length && charAt l p = openc then
    closeScan closec (l.drop (p + 1)) (p + 1)
  else []

/-- Candidate end positions, in backtracking order, for one iteration of
the combinator alternation `(\.\b[a-zA-Z_]\w*\b)|(\[.*?\])|(\(.*?\))` of
`CVLIdsParser.any_combo`. -/
def comboCandidates (l : List Char) (u : Nat) : List Nat :=
  (if u < l.length && charAt l u = '.' then (identEnd l (u + 1)).toList
   else []) ++
  closeCandidates l u '[' ']' ++ closeCandidates l u '(' ')'

/-- Exit positions, in backtracking order, of the greedy star over the
combinator alternation: a backtracking engine first tries to extend with
one more combinator (each alternative and each of its internal choices in
order) and exits at the current position last.  Every combinator consumes
at least one character, so fuel the length of the line suffices. -/
def starExits (l : List Char) : Nat → Nat → List Nat
  | 0, u => [u]
  | fuel + 1, u =>
    ((comboCandidates l u).flatMap (fun v => starExits l fuel v)) ++ [u]

/-- Candidate end positions, in backtracking order, of the optional group
`(:\b[a-zA-Z_]\w*\b(any_combo)*)` starting at `q`. -/
def groupCandidates (l : List Char) (q : Nat) : List Nat :=
  if q < l.length && charAt l q = ':' then
    match identEnd l (q + 1) with
    | some e2 => starExits l l.length e2
    | none => []
  else []

/-- The lookahead `(?=(\s|$))` of `CVLIdsParser.regex`. -/
def lookaheadOk (l : List Char) (r : Nat) : Bool :=
  l.length ≤ r || isWS (charAt l r)

/-- Attempt to match `CVLIdsParser.regex` at position `p`: the lookbehind
`((?<=\s)|^)`, the identifier, then — preferring presence, in
backtracking order — the optional `:identifier(any_combo)*` group,
subject to the lookahead; returns the end position of the match. -/
def matchAt (l : List Char) (p : Nat) : Option Nat :=
  if p = 0 || isWS (charAt l (p - 1)) then
    match identEnd l p with
    | none => none
    | some q => (groupCandidates l q ++ [q]).find? (fun r => lookaheadOk l r)
  else none

/-- Model of `re.finditer` over the line: scan left to right, yield non-overlapping
matches, resume after each match (every match is at least one character
long, so fuel the length of the line plus one suffices). -/
def findAllAux (l : List Char) : Nat → Nat → List (Nat × Nat)
  | 0, _ => []
  | fuel + 1, p =>
    if l.length ≤ p then []
    else match matchAt l p with
      | some e => (p, e) :: findAllAux l fuel e
      | none => findAllAux l fuel (p + 1)

def findAll (l : List Char) : List (Nat × Nat) :=
  findAllAux l (l.length + 1) 0

/-- Python slice `line[s:e]`. -/
def subStr (l : List Char) (s e : Nat) : String :=
  String.mk ((l.drop s).take (e - s))

/-- Model of `CVLIdsParser._is_only_whitespace` (full match of `\s*`). -/
def isOnlyWS (l : List Char) : Bool := l.all isWS

/-- The apostrophe character used by the source's warning messages. -/
def aposQ : String := String.singleton (Char.ofNat 39)

/-- Loop of `CVLIdsParser._legal_parenthesis_check`: the stack holds the
expected closing delimiters, most recently opened first (Python appends
`opens_closes[c]` and reads `stack[-1]`). -/
def parenGo : List Char → Nat → List Char → Option String
  | [], _, stack =>
    match stack with
    | [] => none
    | c :: _ => some ("Unclosed " ++ String.singleton c ++ " in option")
  | c :: rest, i, stack =>
    if c = '(' then parenGo rest (i + 1) (')' :: stack)
    else if c = '[' then parenGo rest (i + 1) (']' :: stack)
    else if c = ')' || c = ']' then
      match stack with
      | top :: stack2 =>
        if top = c then parenGo rest (i + 1) stack2
        else some ("Unmatched " ++ String.singleton c ++ " in char " ++
          toString (i + 1) ++ " of option")
      | [] => some ("Unmatched " ++ String.singleton c ++ " in char " ++
          toString (i + 1) ++ " of option")
    else parenGo rest (i + 1) stack

/-- Model of `CVLIdsParser._legal_parenthesis_check(line)`: `none` when the
parentheses are legal, otherwise the warning message. -/
def legalParenthesisCheck (l : List Char) : Option String := parenGo l 0 []

/-- The in-between-matches warning loop of `CVLIdsParser.__call__`:
everything before the first match, between consecutive matches, and after
the last match must be whitespace only. -/
def gapWarnLoop (l : List Char) : Nat → List (Nat × Nat) → List String
  | start, [] =>
    let s := l.drop start
    if isOnlyWS s then []
    else ["Syntax error in option[" ++ toString start ++ ":]: " ++
      aposQ ++ String.mk s ++ aposQ]
  | start, (ms, me) :: rest =>
    let gap := (l.drop start).take (ms - start)
    (if isOnlyWS gap then []
     else ["Syntax error in option[" ++ toString start ++ ":" ++
       toString ms ++ "]: " ++ aposQ ++ String.mk gap ++ aposQ]) ++
    gapWarnLoop l me rest

/-- Model of `ParsedCVLKeys` from cvlid.py. -/
structure ParsedCVLKeys where
  keys : List String
  warnings : List String
deriving DecidableEq

/-- Model of `CVLIdsParser.__call__(line)` from cvlid.py: the parenthesis check,
the scan for matches of the token regex, the warnings for non-whitespace
in-between spans, and the matched substrings as keys. -/
def CVLIdsParser_call (line : String) : ParsedCVLKeys :=
  let l := line.toList
  let parenWarn := match legalParenthesisCheck l with
    | none => []
    | some w => [w]
  let ms := findAll l
  let warnings := parenWarn ++ gapWarnLoop l 0 ms
  let keys := ms.map (fun se => subStr l se.1 se.2)
  ⟨keys, warnings⟩

-- ===========================================================================
-- cvlid.py: CVLElements.__len__
-- ===========================================================================

/-- Model of `CVLElements.__len__` from cvlid.py.  Its body is `return len(self)`,
an unconditional recursive call on the same receiver with an unchanged
argument; the self-call is made explicit with step fuel: each fuel step
performs one call, and `none` means the computation has not produced a
value within that many calls. -/
def CVLElements_len (elements : List CvlElementModel) : Nat → Option Nat
  | 0 => none
  | fuel + 1 => CVLElements_len elements fuel

-- ===========================================================================
-- Lemmas about the split/join primitives
-- ===========================================================================

theorem pySplitAux_no_sep (sep : Char) (l : List Char) (h : sep ∉ l) :
    pySplitAux sep l = (l, []) := by
  induction l with
  | nil => rfl
  | cons c rest ih =>
    simp only [List.mem_cons, not_or] at h
    have hc : ¬(c = sep) := fun hcc => h.1 hcc.symm
    simp [pySplitAux, ih h.2, hc]

theorem pySplitAux_append (sep : Char) (a b : List Char) (h : sep ∉ a) :
    pySplitAux sep (a ++ sep :: b) = (a, pySplit sep b) := by
  induction a with
  | nil => simp [pySplitAux, pySplit]
  | cons c a2 ih =>
    simp only [List.mem_cons, not_or] at h
    have hc : ¬(c = sep) := fun hcc => h.1 hcc.symm
    simp [pySplitAux, ih h.2, hc, pySplit]

theorem pySplit_append (sep : Char) (a b : List Char) (h : sep ∉ a) :
    pySplit sep (a ++ sep :: b) = a :: pySplit sep b := by
  simp [pySplit, pySplitAux_append sep a b h]

theorem pySplit_no_sep (sep : Char) (l : List Char) (h : sep ∉ l) :
    pySplit sep l = [l] := by
  simp [pySplit, pySplitAux_no_sep sep l h]

theorem pySplit_pyJoin (sep : Char) (parts : List (List Char))
    (hne : parts ≠ []) (h : ∀ p ∈ parts, sep ∉ p) :
    pySplit sep (pyJoin sep parts) = parts := by
  induction parts with
  | nil => exact absurd rfl hne
  | cons p ps ih =>
    cases ps with
    | nil => simpa [pyJoin] using pySplit_no_sep sep p (h p (by simp))
    | cons q ps2 =>
      have hp : sep ∉ p := h p (by simp)
      have hrest := ih (by simp)
        (fun x hx => h x (List.mem_cons_of_mem _ hx))
      calc pySplit sep (pyJoin sep (p :: q :: ps2))
          = pySplit sep (p ++ sep :: pyJoin sep (q :: ps2)) := rfl
        _ = p :: pySplit sep (pyJoin sep (q :: ps2)) :=
            pySplit_append sep p _ hp
        _ = p :: q :: ps2 := by rw [hrest]

theorem mk_toList (s : String) : String.mk s.toList = s := rfl

theorem toList_mk (l : List Char) : (String.mk l).toList = l := rfl

theorem pySplitStr_joinStr (parts : List String) (hne : parts ≠ [])
    (h : ∀ p ∈ parts, ':' ∉ p.toList) :
    pySplitStr (joinStr parts) = parts := by
  unfold pySplitStr joinStr
  rw [toList_mk]
  rw [pySplit_pyJoin ':' (parts.map String.toList) (by simpa using hne)
    (by intro p hp
        rcases List.mem_map.mp hp with ⟨q, hq, rfl⟩
        exact h q hq)]
  rw [List.map_map]
  have : (String.mk ∘ String.toList) = id := by
    funext s; exact mk_toList s
  rw [this, List.map_id]

theorem joinStr_single (s : String) : joinStr [s] = s := rfl

theorem pySplitStr_single (s : String) (h : ':' ∉ s.toList) :
    pySplitStr s = [s] := by
  unfold pySplitStr
  rw [pySplit_no_sep ':' s.toList h]
  simp [mk_toList]

theorem mem_kinds_colonFree (k : String) (hk : k ∈ cvlObjectTypeKeys) :
    ':' ∉ k.toList := by
  simp only [cvlObjectTypeKeys, List.mem_cons, List.not_mem_nil, or_false] at hk
  rcases hk with rfl | rfl | rfl | rfl | rfl | rfl | rfl | rfl | rfl <;> decide

theorem joinStr_cvl_toList_ne_nil (y : String) (ys : List String) :
    (joinStr ("cvl" :: y :: ys)).data ≠ [] := by
  show ("cvl".toList ++ ':' :: pyJoin ':' ((y :: ys).map String.toList)) ≠ []
  simp

-- ===========================================================================
-- Claim theorems
-- ===========================================================================

/-- C1, counterexample to the claim as stated: for kind `rule` with no
spec path and element name `a:b` (the stated presence rules allow any
name), composing and then decomposing does not recover the inputs — the
decomposer reads the name's own `:` as the spec separator and returns
spec path `a` and name `b` instead of no spec path and name `a:b`. -/
theorem c1_refname_roundtrip_counterexample :
    toRefname "rule" none (some "a:b") = .ok "cvl:rule:a:b" ∧
    specAndRulenameFromRef "cvl:rule:a:b" "rule" =
      .ok ("rule", some "a", some "b") ∧
    specAndRulenameFromRef "cvl:rule:a:b" "rule" ≠
      .ok ("rule", none, some "a:b") :=
  ⟨by decide, by decide, by decide⟩

/-- C1 (amended): for every supported object kind `k`, optional spec path
`s` and optional element name `n` obeying the kind's presence rules
(`spec` requires a spec path and no name, `property` a name and no spec
path, every other kind a name), and with `s` and `n` free of the `:`
separator, decomposing the composed refname recovers exactly the inputs:
`spec_and_rulename_from_ref(to_refname(k, s, n), k) = (k, s, n)`. -/
theorem c1_refname_roundtrip (k : String) (s n : Option String) (r : String)
    (hk : k ∈ cvlObjectTypeKeys)
    (hspec : k = "spec" → s.isSome ∧ n = none)
    (hprop : k = "property" → s = none ∧ n.isSome)
    (hother : k ≠ "spec" → k ≠ "property" → n.isSome)
    (hs : colonFreeO s) (hn : colonFreeO n)
    (hr : toRefname k s n = .ok r) :
    specAndRulenameFromRef r k = .ok (k, s, n) := by
  by_cases hk1 : k = "spec"
  · subst hk1
    obtain ⟨hs1, hn1⟩ := hspec rfl
    subst hn1
    obtain ⟨sv, rfl⟩ := Option.isSome_iff_exists.mp hs1
    unfold toRefname at hr
    rw [if_pos rfl] at hr
    have hrr : joinStr ["cvl", "spec", sv] = r := Except.ok.inj hr
    subst hrr
    have hsplit : pySplitStr (joinStr ["cvl", "spec", sv]) =
        ["cvl", "spec", sv] :=
      pySplitStr_joinStr _ (by simp) (by
        intro p hp
        simp only [List.mem_cons, List.not_mem_nil, or_false] at hp
        rcases hp with rfl | rfl | rfl
        · decide
        · decide
        · exact hs)
    have hne := joinStr_cvl_toList_ne_nil "spec" [sv]
    simp [specAndRulenameFromRef, hsplit, hne, cvlObjectTypeKeys]
  · by_cases hk2 : k = "property"
    · subst hk2
      obtain ⟨hs1, hn1⟩ := hprop rfl
      subst hs1
      obtain ⟨nv, rfl⟩ := Option.isSome_iff_exists.mp hn1
      unfold toRefname at hr
      rw [if_neg hk1] at hr
      have hrr : joinStr ["cvl", "property", nv] = r := Except.ok.inj hr
      subst hrr
      have hsplit : pySplitStr (joinStr ["cvl", "property", nv]) =
          ["cvl", "property", nv] :=
        pySplitStr_joinStr _ (by simp) (by
          intro p hp
          simp only [List.mem_cons, List.not_mem_nil, or_false] at hp
          rcases hp with rfl | rfl | rfl
          · decide
          · decide
          · exact hn)
      have hne := joinStr_cvl_toList_ne_nil "property" [nv]
      simp [specAndRulenameFromRef, hsplit, hne, cvlObjectTypeKeys]
    · have hn2 := hother hk1 hk2
      obtain ⟨nv, rfl⟩ := Option.isSome_iff_exists.mp hn2
      have hkcf : ':' ∉ k.toList := mem_kinds_colonFree k hk
      cases s with
      | none =>
        unfold toRefname at hr
        rw [if_neg hk1] at hr
        have hrr : joinStr ["cvl", k, nv] = r := Except.ok.inj hr
        subst hrr
        have hsplit : pySplitStr (joinStr ["cvl", k, nv]) = ["cvl", k, nv] :=
          pySplitStr_joinStr _ (by simp) (by
            intro p hp
            simp only [List.mem_cons, List.not_mem_nil, or_false] at hp
            rcases hp with rfl | rfl | rfl
            · decide
            · exact hkcf
            · exact hn)
        have hne := joinStr_cvl_toList_ne_nil k [nv]
        simp [specAndRulenameFromRef, hsplit, hne, hk1, hk2, hk]
      | some sv =>
        unfold toRefname at hr
        rw [if_neg hk1] at hr
        have hrr : joinStr ["cvl", k, sv, nv] = r := Except.ok.inj hr
        subst hrr
        have hsplit : pySplitStr (joinStr ["cvl", k, sv, nv]) =
            ["cvl", k, sv, nv] :=
          pySplitStr_joinStr _ (by simp) (by
            intro p hp
            simp only [List.mem_cons, List.not_mem_nil, or_false] at hp
            rcases hp with rfl | rfl | rfl | rfl
            · decide
            · exact hkcf
            · exact hs
            · exact hn)
        have hne := joinStr_cvl_toList_ne_nil k [sv, nv]
        simp [specAndRulenameFromRef, hsplit, hne, hk1, hk2, hk]

/-- Witness for C1 (amended): the round trip at kind `rule`, spec path
`sp.spec` and name `onlyOwner`. -/
theorem c1_refname_roundtrip_witness :
    specAndRulenameFromRef "cvl:rule:sp.spec:onlyOwner" "rule" =
      .ok ("rule", some "sp.spec", some "onlyOwner") :=
  c1_refname_roundtrip "rule" (some "sp.spec") (some "onlyOwner")
    "cvl:rule:sp.spec:onlyOwner" (by decide) (by decide) (by decide)
    (by decide) (by decide) (by decide) (by decide)

/-- C6: `spec_and_rulename_from_ref(refname, reftype)` fails with a
structural error exactly when the refname is empty, splits into fewer
than 3 colon-separated parts, its first part is not the domain token
`cvl`, its second part is not a recognized kind, or — for the `spec` and
`property` reftypes — it has more than 3 parts, and for every other
reftype more than 4 parts. -/
theorem c6_decompose_error_conditions (refname reftype : String) :
    isErrE (specAndRulenameFromRef refname reftype) = true ↔
      (refname.toList = [] ∨
       (pySplitStr refname).length < 3 ∨
       (pySplitStr refname).getD 0 "" ≠ "cvl" ∨
       (pySplitStr refname).getD 1 "" ∉ cvlObjectTypeKeys ∨
       ((reftype = "spec" ∨ reftype = "property") ∧
         (pySplitStr refname).length > 3) ∨
       (¬(reftype = "spec" ∨ reftype = "property") ∧
         (pySplitStr refname).length > 4)) := by
  unfold specAndRulenameFromRef
  split_ifs with h1 h2 h3 h4 h5 h6 h7 h8 h9 h10 <;>
    simp_all [isErrE] <;> omega

/-- C2, counterexample to the claim as stated: with a single element
registered only under its spec-qualified refname `cvl:rule:sp.spec:foo`,
a bare-name lookup of `foo` (no spec hint, no kind hint) returns no
match from `find_obj`, while the tiered lookup the claim describes would
find it at its bare-name tier (4); and a spec-hinted lookup does not
return any tier of matches either — it raises `AttributeError` while
canonicalizing the hint.  So `find_obj` does not implement the claimed
tiering. -/
theorem c2_find_obj_counterexample :
    findObj c2cexObjects "foo" none none ≠
      .ok (tieredFindObj c2cexObjects idCanon "foo" none none) ∧
    findObj c2cexObjects "foo" (some "sp.spec") none =
      .error "AttributeError: CodeLinkConfig object has no attribute path2relfn" :=
  ⟨by decide, by decide⟩

/-- C2 (amended): a lookup with a spec hint never reaches the search
loop: `find_obj` raises an uncaught `AttributeError` while
canonicalizing the hint (`CodeLinkConfig` defines no `path2relfn`, and
`find_obj` catches only `ValueError`).  A lookup without a spec hint
consults, in order, the name as given and then the kind-qualified
refname `cvl:kind:name` for each candidate kind, and returns every
registered match among these searches in that order: it does not stop
after the first successful tier (a name registered both bare and
kind-qualified yields both matches, bare first), and it performs no
bare-name search over decomposed refnames (an element registered only
under a spec-qualified refname is not found). -/
theorem c2_find_obj_search_order
    (objectsA objectsB : List (String × CVLObjectEntry))
    (n s k : String) (kind0 : Option String) (e1 e2 : CVLObjectEntry)
    (hpar : endsWithParens n = false) (hncf : ':' ∉ n.toList)
    (hncvl : n ≠ "cvl") (hnk : n ∉ cvlObjectTypeKeys)
    (hk : k ∈ cvlObjectTypeKeys)
    (ha1 : alistLookup objectsA n = some e1)
    (ha2 : alistLookup objectsA (joinStr ["cvl", k, n]) = some e2)
    (hb1 : alistLookup objectsB n = none)
    (hb2 : ∀ t ∈ cvlObjectTypeKeys,
      alistLookup objectsB (joinStr ["cvl", t, n]) = none) :
    findObj objectsA n (some s) kind0 =
      .error "AttributeError: CodeLinkConfig object has no attribute path2relfn" ∧
    findObj objectsA n none (some k) =
      .ok [(n, e1), (joinStr ["cvl", k, n], e2)] ∧
    findObj objectsB n none none = .ok [] := by
  have hsplit : pySplitStr n = [n] := pySplitStr_single n hncf
  have hnkd : ¬n = "rule" ∧ ¬n = "invariant" ∧ ¬n = "function" ∧
      ¬n = "definition" ∧ ¬n = "hook" ∧ ¬n = "ghost" ∧ ¬n = "methods" ∧
      ¬n = "spec" ∧ ¬n = "property" := by
    simpa [cvlObjectTypeKeys] using hnk
  refine ⟨rfl, ?_, ?_⟩
  · simp [findObj, findObjSearch, searchesLoop, hpar, hsplit, hncvl, hnk,
      joinStr_single, ha1, ha2]
  · have hr1 := hb2 "rule" (by decide)
    have hr2 := hb2 "invariant" (by decide)
    have hr3 := hb2 "function" (by decide)
    have hr4 := hb2 "definition" (by decide)
    have hr5 := hb2 "hook" (by decide)
    have hr6 := hb2 "ghost" (by decide)
    have hr7 := hb2 "methods" (by decide)
    have hr8 := hb2 "spec" (by decide)
    have hr9 := hb2 "property" (by decide)
    simp [findObj, findObjSearch, searchesLoop, cvlObjectTypeKeys, hpar,
      hsplit, hncvl, hnkd, joinStr_single, hb1, hr1, hr2, hr3, hr4, hr5,
      hr6, hr7, hr8, hr9]

/-- Witness for C2 (amended): `foo` is registered both bare and as
`cvl:rule:foo`; a spec-hinted lookup raises, a kind-hinted lookup
without spec hint returns both matches bare-first, and a bare-name
lookup against a table holding only a spec-qualified registration
returns nothing. -/
theorem c2_find_obj_search_order_witness :
    findObj c2wObjectsA "foo" (some "sp.spec") none =
      .error "AttributeError: CodeLinkConfig object has no attribute path2relfn" ∧
    findObj c2wObjectsA "foo" none (some "rule") =
      .ok [("foo", c2wEntryA), (joinStr ["cvl", "rule", "foo"], c2wEntryB)] ∧
    findObj c2cexObjects "foo" none none = .ok [] :=
  c2_find_obj_search_order c2wObjectsA c2cexObjects "foo" "sp.spec" "rule"
    none c2wEntryA c2wEntryB (by decide) (by decide) (by decide)
    (by decide) (by decide) (by decide) (by decide) (by decide) (by decide)

/-- C3, counterexample to the claim as stated: with exactly one element
named `bar` registered (kind `rule`, canonical spec path `sp.spec`,
refname `cvl:rule:sp.spec:bar`), none of the three lookups returns one
match: the spec-and-kind-qualified lookup raises `AttributeError` while
canonicalizing the spec hint, and the kind-only and bare-name lookups
return no matches — contradicting the claim that each returns exactly
one match and all three the same refname. -/
theorem c3_lookup_agreement_counterexample :
    findObj c3Objects "bar" (some "sp.spec") (some "rule") =
      .error "AttributeError: CodeLinkConfig object has no attribute path2relfn" ∧
    findObj c3Objects "bar" none (some "rule") = .ok [] ∧
    findObj c3Objects "bar" none none = .ok [] ∧
    ¬ (findObj c3Objects "bar" none (some "rule") =
        .ok [("cvl:rule:sp.spec:bar", c3Entry)]) :=
  ⟨by decide, by decide, by decide, by decide⟩

/-- C3 (amended): for every index state in which the element is
registered only under its spec-qualified refname `cvl:k:s:n` (the bare
name `n` and the kind-qualified refnames `cvl:kind:n` are not table
keys), none of the claim's three lookups resolves it: the lookup with
spec hint `s` and kind hint `k` raises an uncaught `AttributeError`
while canonicalizing the hint (`CodeLinkConfig` defines no
`path2relfn`, and `find_obj` catches only `ValueError`), and the
kind-only and hint-free lookups return no matches, the source having no
bare-name search tier. -/
theorem c3_lookup_agreement_amended
    (objects : List (String × CVLObjectEntry)) (n s k : String)
    (e : CVLObjectEntry)
    (hpar : endsWithParens n = false) (hncf : ':' ∉ n.toList)
    (hncvl : n ≠ "cvl") (hnk : n ∉ cvlObjectTypeKeys)
    (hk : k ∈ cvlObjectTypeKeys)
    (h1 : alistLookup objects n = none)
    (h2 : ∀ t ∈ cvlObjectTypeKeys,
      alistLookup objects (joinStr ["cvl", t, n]) = none)
    (h3 : alistLookup objects (joinStr ["cvl", k, s, n]) = some e) :
    findObj objects n (some s) (some k) =
      .error "AttributeError: CodeLinkConfig object has no attribute path2relfn" ∧
    findObj objects n none (some k) = .ok [] ∧
    findObj objects n none none = .ok [] := by
  have hsplit : pySplitStr n = [n] := pySplitStr_single n hncf
  have hnkd : ¬n = "rule" ∧ ¬n = "invariant" ∧ ¬n = "function" ∧
      ¬n = "definition" ∧ ¬n = "hook" ∧ ¬n = "ghost" ∧ ¬n = "methods" ∧
      ¬n = "spec" ∧ ¬n = "property" := by
    simpa [cvlObjectTypeKeys] using hnk
  have hkn := h2 k hk
  have hr1 := h2 "rule" (by decide)
  have hr2 := h2 "invariant" (by decide)
  have hr3 := h2 "function" (by decide)
  have hr4 := h2 "definition" (by decide)
  have hr5 := h2 "hook" (by decide)
  have hr6 := h2 "ghost" (by decide)
  have hr7 := h2 "methods" (by decide)
  have hr8 := h2 "spec" (by decide)
  have hr9 := h2 "property" (by decide)
  refine ⟨rfl, ?_, ?_⟩
  · simp [findObj, findObjSearch, searchesLoop, hpar, hsplit, hncvl, hnk,
      joinStr_single, h1, hkn]
  · simp [findObj, findObjSearch, searchesLoop, cvlObjectTypeKeys, hpar,
      hsplit, hncvl, hnkd, joinStr_single, h1, hr1, hr2, hr3, hr4, hr5,
      hr6, hr7, hr8, hr9]

/-- Witness for C3 (amended): the element `bar` of kind `rule` in spec
`sp.spec` is reached by none of the three lookups — the spec-hinted one
raises, the other two return nothing. -/
theorem c3_lookup_agreement_amended_witness :
    findObj c3Objects "bar" (some "sp.spec") (some "rule") =
      .error "AttributeError: CodeLinkConfig object has no attribute path2relfn" ∧
    findObj c3Objects "bar" none (some "rule") = .ok [] ∧
    findObj c3Objects "bar" none none = .ok [] :=
  c3_lookup_agreement_amended c3Objects "bar" "sp.spec" "rule" c3Entry
    (by decide) (by decide) (by decide) (by decide) (by decide) (by decide)
    (by decide) (by decide)

/-- C4 (code bug): a duplicate registration of a non-`spec` object records
the duplicate warning — naming the prior owning document — and overwrites
the table entry with the later registration, as the claim states; but a
registration with objtype `spec` raises `AttributeError` (the source
assigns to a field of the immutable `NamedTuple` `CVLSpecEntry`), so
`note_object` does not satisfy "never raises" for the `spec` kind. -/
theorem c4_note_object_spec_raises :
    noteObject [("voting.spec", ⟨"doc1", "id1", "spec"⟩)] "doc2"
        "voting.spec" "spec" "id2" =
      .error
        "AttributeError: can not set attribute has_spec_object of CVLSpecEntry" ∧
    noteObject [("cvl:rule:v.spec:onlyOnce", ⟨"doc1", "id1", "rule"⟩)] "doc2"
        "cvl:rule:v.spec:onlyOnce" "rule" "id2" =
      .ok ([("cvl:rule:v.spec:onlyOnce", ⟨"doc2", "id2", "rule"⟩)],
        ["duplicate rule description of cvl:rule:v.spec:onlyOnce, other rule in doc1"]) :=
  ⟨by decide, by decide⟩

theorem toList_append (a b : String) : (a ++ b).toList = a.toList ++ b.toList := by
  cases a
  cases b
  rfl

/-- C5: for a wrapper of an extra-data kind (`HookOpcode`, `HookSload`,
`HookSstore`), `is_identifier_of` returns `False` on every key without a
`:` separator (a bare name never matches), and on a key of the exact form
`<kind>:<data>` it returns `True` exactly when `<kind>` is the wrapper's
kind name and `<data>` equals the wrapper's auxiliary data field value
(the `opcode` or `slot_pattern` field). -/
theorem c5_extra_data_key_matching (kindNames : List String)
    (w : CvlElementModel) (key kind dat : String)
    (hw : w.kindName ∈ extraDataKindNames)
    (hwn : w.kindName ∈ kindNames)
    (hkey : ':' ∉ key.toList)
    (hkind : ':' ∉ kind.toList) (hdat : ':' ∉ dat.toList) :
    isIdentifierOf kindNames w key = .ok false ∧
    (isIdentifierOf kindNames w (kind ++ ":" ++ dat) = .ok true ↔
      (kind = w.kindName ∧ dat = w.dataField (extraFieldOf w.kindName))) := by
  have hwd : w.kindName = "HookOpcode" ∨ w.kindName = "HookSload" ∨
      w.kindName = "HookSstore" := by
    simpa [extraDataKindNames, extraDataKinds] using hw
  have hlist : (kind ++ ":" ++ dat).toList = kind.toList ++ ':' :: dat.toList := by
    rw [toList_append, toList_append]
    simp
  have hmem : ':' ∈ (kind ++ ":" ++ dat).toList := by
    rw [hlist]; simp
  have hcount : (kind ++ ":" ++ dat).toList.count ':' = 1 := by
    rw [hlist, List.count_append, List.count_eq_zero.mpr hkind,
      List.count_cons_self, List.count_eq_zero.mpr hdat]
  have hparts : pySplitStr (kind ++ ":" ++ dat) = [kind, dat] := by
    unfold pySplitStr
    rw [hlist, pySplit_append ':' _ _ hkind, pySplit_no_sep ':' _ hdat]
    simp [mk_toList]
  have hkeyd : ':' ∉ key.data := hkey
  have hckind : List.count ':' kind.data = 0 := List.count_eq_zero.mpr hkind
  have hcdat : List.count ':' dat.data = 0 := List.count_eq_zero.mpr hdat
  constructor
  · rcases hwd with h | h | h <;>
      simp [isIdentifierOf, parseKey, hkeyd, h, uniqueKindNames, uniqueKinds,
        namedKinds, extraDataKindNames, extraDataKinds]
  · by_cases hkk : kind ∈ kindNames
    · have hpk : parseKey kindNames (kind ++ ":" ++ dat) =
          .ok (some kind, dat) := by
        simp [parseKey, hmem, hcount, hparts, hkk, hckind, hcdat]
      rcases hwd with h | h | h <;>
        simp [isIdentifierOf, hpk, h, uniqueKindNames, uniqueKinds,
          namedKinds, extraDataKindNames, extraDataKinds, extraFieldOf,
          alistLookup, decide_eq_true_eq] <;>
        exact fun _ => eq_comm
    · have hpk : parseKey kindNames (kind ++ ":" ++ dat) =
          .error ("Unknown kind " ++ kind) := by
        simp [parseKey, hmem, hcount, hparts, hkk, hckind, hcdat]
      have herr : isIdentifierOf kindNames w (kind ++ ":" ++ dat) =
          .error ("Unknown kind " ++ kind) := by
        simp [isIdentifierOf, hpk]
      rw [herr]
      constructor
      · intro hcontra
        exact Except.noConfusion hcontra
      · rintro ⟨rfl, -⟩
        exact absurd hwn hkk

/-- Witness for C5: a `HookSstore` element with slot pattern
`_hasVoted[KEY address voter]`; the bare key `numVoted` does not match
it, and the key `HookSstore:_hasVoted[KEY address voter]` matches it
exactly when the kind and data agree. -/
theorem c5_extra_data_key_matching_witness :
    isIdentifierOf supportedKinds demoHook "numVoted" = .ok false ∧
    (isIdentifierOf supportedKinds demoHook
        ("HookSstore" ++ ":" ++ "_hasVoted[KEY address voter]") = .ok true ↔
      ("HookSstore" = demoHook.kindName ∧
        "_hasVoted[KEY address voter]" =
          demoHook.dataField (extraFieldOf demoHook.kindName))) :=
  c5_extra_data_key_matching supportedKinds demoHook "numVoted" "HookSstore"
    "_hasVoted[KEY address voter]" (by decide) (by decide) (by decide)
    (by decide) (by decide)

/-- C7: constructing `CVLElemetWrapper` succeeds exactly when the
element's kind name is among the supported kinds (the union of the
unique, named and extra-data kinds), failing with the unsupported-kind
error in `__init__` itself otherwise; and for every successfully
constructed wrapper, `to_key` and `signature` never reach their
unexpected-kind error branch. -/
theorem c7_unsupported_kind_construction (e : CvlElementModel) :
    (isOkE (CVLElemetWrapper_init e) = true ↔ e.kindName ∈ supportedKinds) ∧
    (CVLElemetWrapper_init e = .ok e →
      isOkE (toKey e) = true ∧ isOkE (signatureOf e) = true) := by
  constructor
  · unfold CVLElemetWrapper_init
    split_ifs with h
    · simp [isOkE, h]
    · simp [isOkE, h]
  · intro hok
    have hmem : e.kindName ∈ supportedKinds := by
      by_contra hcon
      unfold CVLElemetWrapper_init at hok
      rw [if_neg hcon] at hok
      exact Except.noConfusion hok
    have hd : e.kindName = "Methods" ∨ e.kindName = "Definition" ∨
        e.kindName = "Function" ∨ e.kindName = "GhostFunction" ∨
        e.kindName = "GhostMapping" ∨ e.kindName = "Invariant" ∨
        e.kindName = "Rule" ∨ e.kindName = "HookOpcode" ∨
        e.kindName = "HookSload" ∨ e.kindName = "HookSstore" := by
      simpa [supportedKinds, uniqueKindNames, uniqueKinds, namedKinds,
        extraDataKindNames, extraDataKinds] using hmem
    rcases hd with h | h | h | h | h | h | h | h | h | h <;>
      simp [toKey, signatureOf, isOkE, h, uniqueKindNames, uniqueKinds,
        namedKinds, extraDataKindNames, extraDataKinds, alistLookup]

/-- Witness for C7: the rule element `voterDecides` is of a supported
kind, its construction succeeds, and its key and signature are computed
without reaching the error branch. -/
theorem c7_unsupported_kind_construction_witness :
    (isOkE (CVLElemetWrapper_init demoRule) = true ↔
      demoRule.kindName ∈ supportedKinds) ∧
    (isOkE (toKey demoRule) = true ∧ isOkE (signatureOf demoRule) = true) :=
  ⟨(c7_unsupported_kind_construction demoRule).1,
   (c7_unsupported_kind_construction demoRule).2 (by
     unfold CVLElemetWrapper_init
     rw [if_pos (show demoRule.kindName ∈ supportedKinds by decide)])⟩

/-- C8: on the well-formed option string
`numVoted HookSstore:_hasVoted[KEY address voter]` the identifier lexer
returns exactly the keys `numVoted` and
`HookSstore:_hasVoted[KEY address voter]`, in that order, and no
warnings. -/
theorem c8_lexer_wellformed :
    CVLIdsParser_call "numVoted HookSstore:_hasVoted[KEY address voter]" =
      ⟨["numVoted", "HookSstore:_hasVoted[KEY address voter]"], []⟩ := by
  decide

/-- C9: on the malformed option string
`HookSstore:voted[INDEX uin256 i numVoted` (unclosed bracket) the
identifier lexer still extracts a non-empty key list, and reports both an
unclosed-bracket warning and a syntax-error warning naming the unmatched
span: its start and end offsets 0 and 23 and the exact unmatched
substring. -/
theorem c9_lexer_malformed :
    (CVLIdsParser_call "HookSstore:voted[INDEX uin256 i numVoted").keys ≠ [] ∧
    "Unclosed ] in option" ∈
      (CVLIdsParser_call "HookSstore:voted[INDEX uin256 i numVoted").warnings ∧
    ("Syntax error in option[0:23]: " ++ aposQ ++ "HookSstore:voted[INDEX " ++
        aposQ) ∈
      (CVLIdsParser_call "HookSstore:voted[INDEX uin256 i numVoted").warnings :=
  ⟨by decide, by decide, by decide⟩

/-- C10: `CVLElements.__len__` is an unconditional self-call with an
unchanged argument, so it never returns a value under any call budget —
in particular it never yields the number of stored elements — even though
the collection itself is finite. -/
theorem c10_len_nonterminating (elements : List CvlElementModel)
    (fuel : Nat) :
    CVLElements_len elements fuel = none ∧
    CVLElements_len elements fuel ≠ some elements.length := by
  have h : CVLElements_len elements fuel = none := by
    induction fuel with
    | zero => rfl
    | succ f ih => simpa [CVLElements_len] using ih
  exact ⟨h, by simp [h]⟩
